import Mathlib

/-!
# Verification of `generate_report.py`

Shallow embedding of the report-generator script. The script is a
straight-line program over the python-docx API: it creates a document,
appends a title heading, an empty spacing paragraph, three sections each
made of a level-1 heading followed by one or two paragraphs whose single
text run is set to 11pt, saves the document to a hard-coded path, and
prints a confirmation message.

The embedding models:
* a document as an ordered list of blocks (headings carrying a text, a
  level and an optional alignment; paragraphs carrying a list of text
  runs, each run having a text and an optional explicit font size);
* the module-level statements of the script as a list of commands
  interpreted over a state holding the document under construction, a
  simple filesystem, and the lines printed so far;
* the import-time dependency fallback (`try: import docx / except
  ImportError: pip install; import docx`) as a separate phase driven by
  an environment record;
* `doc.save(path)` as a filesystem update that requires the parent
  directory to exist and be writable, storing the block sequence as the
  file's content (serialization is deterministic, so file contents are
  identified with the block sequence they encode).

In the source every mutation (`title.alignment = ...`,
`p.add_run(...)`, `run.font.size = Pt(11)`) targets the block or run
that was appended immediately before, so the embedding addresses the
last block / last run of the document.
-/

set_option autoImplicit false

namespace GenerateReport

/-- Paragraph alignment values used by the script (`WD_ALIGN_PARAGRAPH.CENTER`). -/
inductive Alignment where
  | center
deriving DecidableEq, Repr

/-- A contiguous span of text with uniform formatting inside a paragraph.
`fontSizePt = none` means the run is left at the default/inherited size;
`run.font.size = Pt(n)` sets it to `some n`. -/
structure TextRun where
  text : String
  fontSizePt : Option Nat
deriving DecidableEq, Repr

/-- One document block: a heading (text, level, optional explicit
alignment) or a paragraph (list of runs). -/
inductive Block where
  | heading (text : String) (level : Nat) (alignment : Option Alignment)
  | paragraph (runs : List TextRun)
deriving DecidableEq, Repr

/-- A document is the ordered sequence of its blocks. -/
abbrev Doc := List Block

/-! ## The literal content of the script -/

/-- Line 22: title text. -/
def titleText : String := "Bainum Project Annual Report"

/-- Line 30: introduction paragraph run. -/
def introText : String := "The Bainum Project Dashboard is a comprehensive web-based platform designed to support early childhood development assessment and tracking. The system enables teachers, administrators, and parents to collaboratively monitor children's language development through automated analysis of audio recordings. "

/-- Line 33: first section heading. -/
def builtHeading : String := "How It Was Built"

/-- Line 35: first section paragraph run. -/
def builtText : String := "The dashboard was developed using a modern full-stack architecture. The frontend is built with React and Vite, utilizing Tailwind CSS and DaisyUI for a responsive, accessible user interface. The backend is powered by Node.js and Express, with MongoDB serving as the database for storing child records, assessments, and user data. The system integrates with RevAI's Automatic Speech Recognition (ASR) API to transcribe audio recordings of children's speech. The application implements role-based access control with three distinct user types: administrators who manage the system, teachers who upload recordings and track student progress, and parents who can view their child's developmental data. Security features include JWT authentication, password hashing with bcrypt, and secure invitation-based registration for parents and teachers. "

/-- Line 38: second section heading. -/
def doesHeading : String := "What It Does"

/-- Line 40: second section, first paragraph run. -/
def does1Text : String := "The dashboard provides a comprehensive suite of tools for tracking and analyzing children's language development. When teachers upload audio recordings, the system automatically transcribes the speech using RevAI and analyzes the transcripts for educational keywords across four key domains: Science Talk (scientific vocabulary and concepts), Social Talk (communication and interaction), Literature Talk (storytelling and narrative skills), and Language Development (overall language growth). "

/-- Line 43: second section, second paragraph run. -/
def does2Text : String := "The platform visualizes this data through interactive dashboards featuring monthly dot matrix displays showing keyword frequency over time, as well as speedometer gauges that provide at-a-glance metrics for each developmental category. Teachers can review transcripts before accepting assessments, add observational notes, and track progress across multiple recordings. Parents receive secure, invitation-based access to view their child's developmental data, fostering transparency and engagement. Administrators can manage teacher and child profiles, view all transcripts, and access comprehensive analytics across the entire program. "

/-- Line 46: third section heading. -/
def futureHeading : String := "Future Development"

/-- Line 48: third section, first paragraph run. -/
def future1Text : String := "Moving forward, we plan to enhance the dashboard with advanced AI-powered analysis capabilities. The current keyword-based approach will be augmented with semantic analysis using large language models to provide deeper insights into children's language development, including identification of developmental milestones, vocabulary complexity assessment, and personalized recommendations for teachers and parents. "

/-- Line 51: third section, second paragraph run. -/
def future2Text : String := "Additional planned features include longitudinal trend analysis with predictive modeling, enhanced data visualization with comparative analytics across children and classrooms, automated report generation for stakeholders, and mobile application support for easier recording uploads in classroom settings. We also aim to integrate with existing educational assessment frameworks and expand the keyword taxonomy based on research findings and user feedback. "

/-- Parent directory of the hard-coded output path (line 54). -/
def output_dir : String := "/home/vashist/Desktop/Desktop/Anita Zucker Center/Bainum Project/Main"

/-- File name component of the hard-coded output path (line 54). -/
def output_name : String := "Bainum_Project_Annual_Report.docx"

/-- The hard-coded output path of line 54. -/
def output_path : String := output_dir ++ "/" ++ output_name

/-- The confirmation message printed on line 56
(`f"Report generated successfully: \x7boutput_path\x7d"`). -/
def successMsg : String := "Report generated successfully: " ++ output_path

/-- The message printed at line 11 when the import of python-docx fails. -/
def installMsg : String := "python-docx not installed. Installing..."

/-! ## Filesystem model -/

/-- A minimal filesystem: the set of existing directories, the subset of
writable directories, and a map from file paths to file contents. A
file's content is the block sequence it encodes (serialization of a
document is deterministic, so equal block sequences mean byte-identical
files for a fixed library version). -/
structure FileSystem where
  dirs : List String
  writableDirs : List String
  files : List (String × Doc)
deriving DecidableEq, Repr

/-- `doc.save` precondition: the parent directory of the output path
exists and is writable. -/
def writableCond (fs : FileSystem) : Bool :=
  fs.dirs.contains output_dir && fs.writableDirs.contains output_dir

/-- Store `d` at path `p`, overwriting any existing file at `p`. -/
def writeFile (fs : FileSystem) (p : String) (d : Doc) : FileSystem :=
  { fs with files := (p, d) :: fs.files.filter (fun kv => kv.1 != p) }

/-! ## The script as a command sequence -/

/-- One module-level API action of the script. Mutating actions address
the most recently appended block (and, for run size, its most recently
appended run), which is how the source uses its local handles. -/
inductive Cmd where
  | createDoc
  | addHeading (text : String) (level : Nat)
  | setAlignLast (a : Alignment)
  | addParagraph
  | addRunLast (text : String)
  | setSizeLastRun (pt : Nat)
  | saveDoc
  | printMsg
deriving DecidableEq, Repr

/-- Errors an interpreted command can raise. `saveFailed` models the
IOError/OSError raised by `doc.save` on an unwritable path; the other
two are unreachable on the script's command sequence. -/
inductive PErr where
  | noDocument
  | badTarget
  | saveFailed
deriving DecidableEq, Repr

/-- Python exception class name corresponding to an interpreter error. -/
def PErr.pyName : PErr → String
  | .noDocument => "NameError"
  | .badTarget => "AttributeError"
  | .saveFailed => "OSError"

/-- Apply `f` to the last element of a list; `none` on the empty list or
when `f` rejects the element. -/
def modifyLast {α : Type} (f : α → Option α) : List α → Option (List α)
  | [] => none
  | [x] => (f x).map (fun y => [y])
  | x :: y :: rest => (modifyLast f (y :: rest)).map (fun l => x :: l)

/-- Set the alignment of the last block (must be a heading; in the
source the only alignment assignment targets the title heading). -/
def alignLast (a : Alignment) : Doc → Option Doc :=
  modifyLast fun b =>
    match b with
    | Block.heading t l _ => some (Block.heading t l (some a))
    | Block.paragraph _ => none

/-- Append a run (with default font size) to the last block, which must
be a paragraph. -/
def addRunToLast (t : String) : Doc → Option Doc :=
  modifyLast fun b =>
    match b with
    | Block.paragraph rs => some (Block.paragraph (rs ++ [⟨t, none⟩]))
    | Block.heading _ _ _ => none

/-- Set the font size of the last run of the last block (a paragraph
with at least one run). -/
def setSizeLast (pt : Nat) : Doc → Option Doc :=
  modifyLast fun b =>
    match b with
    | Block.paragraph rs =>
        (modifyLast (fun r => some { r with fontSizePt := some pt }) rs).map
          Block.paragraph
    | Block.heading _ _ _ => none

/-- Interpreter state: the document under construction (`none` before
`Document()` runs), the filesystem, and the lines printed so far. -/
structure PState where
  doc : Option Doc
  fs : FileSystem
  out : List String
deriving DecidableEq, Repr

/-- One step of the module-level script. -/
def step (c : Cmd) (s : PState) : Except PErr PState :=
  match c with
  | Cmd.createDoc => Except.ok { s with doc := some [] }
  | Cmd.addHeading t l =>
      match s.doc with
      | none => Except.error PErr.noDocument
      | some d => Except.ok { s with doc := some (d ++ [Block.heading t l none]) }
  | Cmd.setAlignLast a =>
      match s.doc with
      | none => Except.error PErr.noDocument
      | some d =>
          match alignLast a d with
          | none => Except.error PErr.badTarget
          | some d2 => Except.ok { s with doc := some d2 }
  | Cmd.addParagraph =>
      match s.doc with
      | none => Except.error PErr.noDocument
      | some d => Except.ok { s with doc := some (d ++ [Block.paragraph []]) }
  | Cmd.addRunLast t =>
      match s.doc with
      | none => Except.error PErr.noDocument
      | some d =>
          match addRunToLast t d with
          | none => Except.error PErr.badTarget
          | some d2 => Except.ok { s with doc := some d2 }
  | Cmd.setSizeLastRun pt =>
      match s.doc with
      | none => Except.error PErr.noDocument
      | some d =>
          match setSizeLast pt d with
          | none => Except.error PErr.badTarget
          | some d2 => Except.ok { s with doc := some d2 }
  | Cmd.saveDoc =>
      match s.doc with
      | none => Except.error PErr.noDocument
      | some d =>
          if writableCond s.fs then
            Except.ok { s with fs := writeFile s.fs output_path d }
          else Except.error PErr.saveFailed
  | Cmd.printMsg => Except.ok { s with out := s.out ++ [successMsg] }

/-- Run a command list; on the first error, stop and return the state
reached so far (the exception propagates, nothing later runs). -/
def runProg : List Cmd → PState → Option PErr × PState
  | [], s => (none, s)
  | c :: cs, s =>
      match step c s with
      | Except.error e => (some e, s)
      | Except.ok s2 => runProg cs s2

/-- The document-assembly statements of the script (lines 19-51), in
source order. -/
def assemblyCmds : List Cmd :=
  [ Cmd.createDoc,
    Cmd.addHeading titleText 0,
    Cmd.setAlignLast Alignment.center,
    Cmd.addParagraph,
    Cmd.addParagraph,
    Cmd.addRunLast introText,
    Cmd.setSizeLastRun 11,
    Cmd.addHeading builtHeading 1,
    Cmd.addParagraph,
    Cmd.addRunLast builtText,
    Cmd.setSizeLastRun 11,
    Cmd.addHeading doesHeading 1,
    Cmd.addParagraph,
    Cmd.addRunLast does1Text,
    Cmd.setSizeLastRun 11,
    Cmd.addParagraph,
    Cmd.addRunLast does2Text,
    Cmd.setSizeLastRun 11,
    Cmd.addHeading futureHeading 1,
    Cmd.addParagraph,
    Cmd.addRunLast future1Text,
    Cmd.setSizeLastRun 11,
    Cmd.addParagraph,
    Cmd.addRunLast future2Text,
    Cmd.setSizeLastRun 11 ]

/-- The whole module-level script (lines 19-56): assembly, then
`doc.save(output_path)`, then the confirmation `print`. -/
def program : List Cmd := assemblyCmds ++ [Cmd.saveDoc, Cmd.printMsg]

/-- An empty filesystem, used only to extract the assembled document
(assembly never touches the filesystem). -/
def emptyFS : FileSystem := ⟨[], [], []⟩

/-- The document the script assembles before saving. -/
def reportDoc : Doc :=
  ((runProg assemblyCmds ⟨none, emptyFS, []⟩).2.doc).getD []

/-! ## The import phase and the whole process -/

/-- The environment the process starts in: whether python-docx imports
on the first try, whether `pip3 install python-docx` exits with status
0, and whether the import after a successful install works. -/
structure Env where
  docxAvailable : Bool
  installSucceeds : Bool
  availableAfterInstall : Bool
deriving DecidableEq, Repr

/-- Outcome of the import phase: how many install attempts were made,
what was printed, and the uncaught exception class if the phase failed. -/
structure ImportResult where
  attempts : Nat
  printed : List String
  exc : Option String
deriving DecidableEq, Repr

/-- Lines 6-16 of the script: try the import; on `ImportError`, print a
notice, run `pip3 install` (a failing install raises
`CalledProcessError`), and retry the import exactly once (a failing
retry raises `ImportError`). -/
def importPhase (e : Env) : ImportResult :=
  if e.docxAvailable then ⟨0, [], none⟩
  else if !e.installSucceeds then ⟨1, [installMsg], some "CalledProcessError"⟩
  else if e.availableAfterInstall then ⟨1, [installMsg], none⟩
  else ⟨1, [installMsg], some "ImportError"⟩

/-- Result of one process run: exit status, stdout lines, final
filesystem, number of install attempts, and the uncaught exception
class if the process died on one (Python exits with status 1 on an
uncaught exception). -/
structure ProcResult where
  exitCode : Nat
  out : List String
  fs : FileSystem
  installAttempts : Nat
  uncaught : Option String
deriving DecidableEq, Repr

/-- A whole run of `generate_report.py`: the import phase, then the
module-level statements; any uncaught exception terminates the process
with status 1. -/
def runProcess (e : Env) (fs0 : FileSystem) : ProcResult :=
  let imp := importPhase e
  match imp.exc with
  | some x => ⟨1, imp.printed, fs0, imp.attempts, some x⟩
  | none =>
      match runProg program ⟨none, fs0, imp.printed⟩ with
      | (none, s) => ⟨0, s.out, s.fs, imp.attempts, none⟩
      | (some err, s) => ⟨1, s.out, s.fs, imp.attempts, some err.pyName⟩

/-! ## Observations on a document -/

/-- The runs of each (non-heading) paragraph, in document order. -/
def paragraphRuns (d : Doc) : List (List TextRun) :=
  d.filterMap fun b =>
    match b with
    | Block.paragraph rs => some rs
    | Block.heading _ _ _ => none

/-- The texts of the headings of level `l`, in document order. -/
def headingTexts (d : Doc) (l : Nat) : List String :=
  d.filterMap fun b =>
    match b with
    | Block.heading t lv _ => if lv == l then some t else none
    | Block.paragraph _ => none

/-- Block kind fingerprint: `0` for a paragraph, `l + 1` for a heading
of level `l`. Alignment, run content and run formatting are ignored, so
in-place mutation of a block keeps its fingerprint. -/
def blockKind : Block → Nat
  | Block.heading _ l _ => l + 1
  | Block.paragraph _ => 0

/-- Kind fingerprints of a document's blocks, in order. -/
def skeleton (d : Doc) : List Nat := d.map blockKind

/-- Whether a command writes to the in-memory document (creation,
append, or in-place mutation). -/
def docWrite : Cmd → Bool
  | Cmd.createDoc => true
  | Cmd.addHeading _ _ => true
  | Cmd.setAlignLast _ => true
  | Cmd.addParagraph => true
  | Cmd.addRunLast _ => true
  | Cmd.setSizeLastRun _ => true
  | Cmd.saveDoc => false
  | Cmd.printMsg => false

/-- The document after the first `i` module-level statements, starting
from a given filesystem. -/
def docAfter (fs : FileSystem) (i : Nat) : Doc :=
  ((runProg (program.take i) ⟨none, fs, []⟩).2.doc).getD []

/-- A filesystem on which the hard-coded output path is writable and no
file exists yet. -/
def writableFS : FileSystem := ⟨[output_dir], [output_dir], []⟩

/-- A filesystem on which the parent directory of the output path does
not exist. -/
def noDirFS : FileSystem := ⟨["/tmp"], ["/tmp"], []⟩

/-- An environment where python-docx is already installed. -/
def envOk : Env := ⟨true, true, true⟩

/-- An environment where the import fails, `pip3 install` exits 0, but
the retried import fails again. -/
def envRetryFails : Env := ⟨false, true, false⟩

/-! ## Helper lemmas -/

theorem runProg_assembly (fs : FileSystem) (pre : List String) :
    runProg assemblyCmds ⟨none, fs, pre⟩ = (none, ⟨some reportDoc, fs, pre⟩) := rfl

theorem runProg_append (cs ds : List Cmd) (s : PState) :
    runProg (cs ++ ds) s =
      match runProg cs s with
      | (none, s2) => runProg ds s2
      | (some e, s2) => (some e, s2) := by
  induction cs generalizing s with
  | nil => simp [runProg]
  | cons c cs ih =>
      rw [List.cons_append]
      simp only [runProg]
      cases step c s with
      | error e => simp
      | ok s2 => simp [ih]

theorem runProg_program_run (fs : FileSystem) (pre : List String) :
    runProg program ⟨none, fs, pre⟩ =
      if writableCond fs then
        (none, ⟨some reportDoc, writeFile fs output_path reportDoc, pre ++ [successMsg]⟩)
      else (some PErr.saveFailed, ⟨some reportDoc, fs, pre⟩) := by
  rw [show program = assemblyCmds ++ [Cmd.saveDoc, Cmd.printMsg] from rfl,
    runProg_append, runProg_assembly]
  show runProg [Cmd.saveDoc, Cmd.printMsg] ⟨some reportDoc, fs, pre⟩ = _
  cases h : writableCond fs with
  | true => simp [runProg, step, h]
  | false => simp [runProg, step, h]

theorem lookup_writeFile (fs : FileSystem) (p : String) (d : Doc) :
    (writeFile fs p d).files.lookup p = some d := by
  simp [writeFile, List.lookup]

theorem writableCond_writeFile (fs : FileSystem) (p : String) (d : Doc) :
    writableCond (writeFile fs p d) = writableCond fs := rfl

theorem runProcess_avail (e : Env) (fs : FileSystem) (h : e.docxAvailable = true) :
    runProcess e fs =
      if writableCond fs then
        ⟨0, [successMsg], writeFile fs output_path reportDoc, 0, none⟩
      else ⟨1, [], fs, 0, some "OSError"⟩ := by
  have himp : importPhase e = ⟨0, [], none⟩ := by simp [importPhase, h]
  rw [runProcess]
  rw [himp]
  simp only []
  rw [runProg_program_run]
  cases hw : writableCond fs with
  | true => simp [hw]
  | false => simp [hw, PErr.pyName]

theorem runProcess_import_exc (e : Env) (fs : FileSystem) (x : String)
    (h : (importPhase e).exc = some x) :
    runProcess e fs =
      ⟨1, (importPhase e).printed, fs, (importPhase e).attempts, some x⟩ := by
  rcases himp : importPhase e with ⟨att, pre, exc⟩
  rw [himp] at h
  subst h
  simp [runProcess, himp]

theorem runProcess_import_ok (e : Env) (fs : FileSystem)
    (h : (importPhase e).exc = none) :
    runProcess e fs =
      if writableCond fs then
        ⟨0, (importPhase e).printed ++ [successMsg],
         writeFile fs output_path reportDoc, (importPhase e).attempts, none⟩
      else ⟨1, (importPhase e).printed, fs, (importPhase e).attempts, some "OSError"⟩ := by
  rcases himp : importPhase e with ⟨att, pre, exc⟩
  rw [himp] at h
  subst h
  simp only [runProcess, himp]
  rw [runProg_program_run]
  cases hw : writableCond fs with
  | true => simp [hw]
  | false => simp [hw, PErr.pyName]

/-! ## Claim theorems -/

/-- C2: the produced document contains exactly three level-1 section
headings, and they appear in the fixed order "How It Was Built",
"What It Does", "Future Development". -/
theorem section_headings_ordered :
    headingTexts reportDoc 1 = ["How It Was Built", "What It Does", "Future Development"] := rfl

/-- C3: the produced document contains exactly one level-0 (title)
heading, it is the first block, its text is the literal title string,
and it is center-aligned. -/
theorem title_first_centered :
    headingTexts reportDoc 0 = ["Bainum Project Annual Report"] ∧
    reportDoc.head? =
      some (Block.heading "Bainum Project Annual Report" 0 (some Alignment.center)) :=
  ⟨rfl, rfl⟩

/-- C4: every text run of every paragraph of the produced document
carries an explicit font size of 11pt; no run is left at the
default/inherited size (`fontSizePt = none`). -/
theorem runs_explicit_11pt :
    (paragraphRuns reportDoc).all
      (fun rs => rs.all fun r => r.fontSizePt == some 11) = true := rfl

/-- C10: the second block of the document is an empty spacing paragraph
(zero runs), sitting between the title heading and the introduction
paragraph, and the document holds 7 paragraphs in total: the empty one
plus six content paragraphs, each with exactly one 11pt run. -/
theorem spacing_and_paragraph_count :
    reportDoc.take 3 =
      [Block.heading titleText 0 (some Alignment.center),
       Block.paragraph [],
       Block.paragraph [⟨introText, some 11⟩]] ∧
    paragraphRuns reportDoc =
      [[], [⟨introText, some 11⟩], [⟨builtText, some 11⟩], [⟨does1Text, some 11⟩],
       [⟨does2Text, some 11⟩], [⟨future1Text, some 11⟩], [⟨future2Text, some 11⟩]] ∧
    (paragraphRuns reportDoc).length = 7 :=
  ⟨rfl, rfl, rfl⟩

/-- C1 counterexample: the produced document does not contain 4
paragraphs — it contains 7 (one empty spacing paragraph and six content
paragraphs). -/
theorem report_scenario_cex : ¬ ((paragraphRuns reportDoc).length = 4) := by decide

/-- C1 (amended): for every run of the generator with the library
available and the output path writable, the saved document contains
exactly 1 title heading, 3 section headings and 7 paragraphs (one empty
spacing paragraph and six content paragraphs), each matching the
literal strings embedded in the generator. -/
theorem report_scenario_amended (e : Env) (fs : FileSystem)
    (h1 : e.docxAvailable = true) (h2 : writableCond fs = true) :
    (runProcess e fs).fs.files.lookup output_path = some reportDoc ∧
    (headingTexts reportDoc 0).length = 1 ∧
    (headingTexts reportDoc 1).length = 3 ∧
    (paragraphRuns reportDoc).length = 7 ∧
    headingTexts reportDoc 0 = [titleText] ∧
    headingTexts reportDoc 1 = [builtHeading, doesHeading, futureHeading] ∧
    paragraphRuns reportDoc =
      [[], [⟨introText, some 11⟩], [⟨builtText, some 11⟩], [⟨does1Text, some 11⟩],
       [⟨does2Text, some 11⟩], [⟨future1Text, some 11⟩], [⟨future2Text, some 11⟩]] := by
  refine ⟨?_, rfl, rfl, rfl, rfl, rfl, rfl⟩
  rw [runProcess_avail e fs h1, if_pos h2]
  exact lookup_writeFile fs output_path reportDoc

/-- C1 witness: the amended scenario instantiated on a concrete
environment and a concrete writable filesystem. -/
theorem report_scenario_amended_witness :
    envOk.docxAvailable = true ∧ writableCond writableFS = true ∧
    ((runProcess envOk writableFS).fs.files.lookup output_path = some reportDoc ∧
     (headingTexts reportDoc 0).length = 1 ∧
     (headingTexts reportDoc 1).length = 3 ∧
     (paragraphRuns reportDoc).length = 7 ∧
     headingTexts reportDoc 0 = [titleText] ∧
     headingTexts reportDoc 1 = [builtHeading, doesHeading, futureHeading] ∧
     paragraphRuns reportDoc =
       [[], [⟨introText, some 11⟩], [⟨builtText, some 11⟩], [⟨does1Text, some 11⟩],
        [⟨does2Text, some 11⟩], [⟨future1Text, some 11⟩], [⟨future2Text, some 11⟩]]) :=
  ⟨rfl, rfl, report_scenario_amended envOk writableFS rfl rfl⟩

/-- C5: running the generator twice against the same output path (the
second run starting from the filesystem the first produced) stores the
same document both times: the output is a deterministic function of no
inputs. -/
theorem output_deterministic (e : Env) (fs : FileSystem)
    (h1 : e.docxAvailable = true) (h2 : writableCond fs = true) :
    (runProcess e fs).fs.files.lookup output_path =
      (runProcess e (runProcess e fs).fs).fs.files.lookup output_path ∧
    (runProcess e fs).fs.files.lookup output_path = some reportDoc := by
  have hrun : runProcess e fs =
      ⟨0, [successMsg], writeFile fs output_path reportDoc, 0, none⟩ := by
    rw [runProcess_avail e fs h1, if_pos h2]
  have h2b : writableCond (writeFile fs output_path reportDoc) = true := by
    rw [writableCond_writeFile]; exact h2
  have hrun2 : runProcess e (writeFile fs output_path reportDoc) =
      ⟨0, [successMsg],
       writeFile (writeFile fs output_path reportDoc) output_path reportDoc, 0, none⟩ := by
    rw [runProcess_avail e _ h1, if_pos h2b]
  constructor
  · rw [hrun]
    show _ = (runProcess e (writeFile fs output_path reportDoc)).fs.files.lookup output_path
    rw [hrun2]
    show (writeFile fs output_path reportDoc).files.lookup output_path = _
    rw [lookup_writeFile, lookup_writeFile]
  · rw [hrun]
    exact lookup_writeFile fs output_path reportDoc

/-- C5 witness: determinism instantiated on a concrete environment and
a concrete writable filesystem. -/
theorem output_deterministic_witness :
    envOk.docxAvailable = true ∧ writableCond writableFS = true ∧
    ((runProcess envOk writableFS).fs.files.lookup output_path =
       (runProcess envOk (runProcess envOk writableFS).fs).fs.files.lookup output_path ∧
     (runProcess envOk writableFS).fs.files.lookup output_path = some reportDoc) :=
  ⟨rfl, rfl, output_deterministic envOk writableFS rfl rfl⟩

/-- C6: when the output path's parent directory does not exist or is
not writable, `doc.save` raises an uncaught IOError-class (OSError)
exception, the process exits with status 1, and the filesystem is left
untouched (no output file); when the path is writable, the file at the
path is overwritten with the report regardless of its prior content. -/
theorem save_error_and_overwrite (e : Env) (fs : FileSystem)
    (h1 : e.docxAvailable = true) :
    (writableCond fs = false →
        (runProcess e fs).exitCode = 1 ∧
        (runProcess e fs).uncaught = some "OSError" ∧
        (runProcess e fs).fs = fs) ∧
    (writableCond fs = true →
        (runProcess e fs).exitCode = 0 ∧
        (runProcess e fs).fs.files.lookup output_path = some reportDoc) := by
  constructor
  · intro hw
    rw [runProcess_avail e fs h1, if_neg (by simp [hw])]
    exact ⟨rfl, rfl, rfl⟩
  · intro hw
    rw [runProcess_avail e fs h1, if_pos hw]
    exact ⟨rfl, lookup_writeFile fs output_path reportDoc⟩

/-- C6 witness: the failure branch instantiated on a filesystem whose
directories do not include the output path's parent. -/
theorem save_error_and_overwrite_witness :
    envOk.docxAvailable = true ∧ writableCond noDirFS = false ∧
    ((runProcess envOk noDirFS).exitCode = 1 ∧
     (runProcess envOk noDirFS).uncaught = some "OSError" ∧
     (runProcess envOk noDirFS).fs = noDirFS) :=
  ⟨rfl, by decide, (save_error_and_overwrite envOk noDirFS rfl).1 (by decide)⟩

/-- C7: when the formatting library is unavailable at startup the
process attempts exactly one automatic package installation (and none
when it is available), then retries the import once; if the retry also
fails the process dies on an uncaught ImportError with status 1 and
writes nothing. -/
theorem dependency_fallback (e : Env) (fs : FileSystem) :
    ((runProcess e fs).installAttempts = if e.docxAvailable then 0 else 1) ∧
    (e.docxAvailable = false → e.installSucceeds = true →
     e.availableAfterInstall = false →
        (runProcess e fs).exitCode = 1 ∧
        (runProcess e fs).uncaught = some "ImportError" ∧
        (runProcess e fs).fs = fs) := by
  constructor
  · cases h : e.docxAvailable with
    | true =>
        rw [runProcess_avail e fs h]
        cases hw : writableCond fs with
        | true => simp [hw]
        | false => simp [hw]
    | false =>
        cases h2 : e.installSucceeds with
        | false =>
            rw [runProcess_import_exc e fs "CalledProcessError"
              (by simp [importPhase, h, h2])]
            simp [importPhase, h, h2]
        | true =>
            cases h3 : e.availableAfterInstall with
            | false =>
                rw [runProcess_import_exc e fs "ImportError"
                  (by simp [importPhase, h, h2, h3])]
                simp [importPhase, h, h2, h3]
            | true =>
                rw [runProcess_import_ok e fs (by simp [importPhase, h, h2, h3])]
                cases hw : writableCond fs with
                | true => simp [hw, importPhase, h, h2, h3]
                | false => simp [hw, importPhase, h, h2, h3]
  · intro h1 h2 h3
    rw [runProcess_import_exc e fs "ImportError" (by simp [importPhase, h1, h2, h3])]
    exact ⟨rfl, rfl, rfl⟩

/-- C7 witness: the fallback instantiated on an environment where the
install exits 0 but the retried import fails. -/
theorem dependency_fallback_witness :
    envRetryFails.docxAvailable = false ∧ envRetryFails.installSucceeds = true ∧
    envRetryFails.availableAfterInstall = false ∧
    ((runProcess envRetryFails emptyFS).installAttempts =
       if envRetryFails.docxAvailable then 0 else 1) ∧
    ((runProcess envRetryFails emptyFS).exitCode = 1 ∧
     (runProcess envRetryFails emptyFS).uncaught = some "ImportError" ∧
     (runProcess envRetryFails emptyFS).fs = emptyFS) :=
  ⟨rfl, rfl, rfl, (dependency_fallback envRetryFails emptyFS).1,
   (dependency_fallback envRetryFails emptyFS).2 rfl rfl rfl⟩

/-- C8: on success the process prints a confirmation message containing
the output path and exits with status 0; an unwritable output path or a
failed import terminates the process with a non-zero status. -/
theorem exit_codes (e : Env) (fs : FileSystem) :
    ((importPhase e).exc = none → writableCond fs = true →
        (runProcess e fs).exitCode = 0 ∧
        successMsg ∈ (runProcess e fs).out ∧
        successMsg = "Report generated successfully: " ++ output_path) ∧
    ((importPhase e).exc = none → writableCond fs = false →
        (runProcess e fs).exitCode ≠ 0) ∧
    ((importPhase e).exc ≠ none → (runProcess e fs).exitCode ≠ 0) := by
  refine ⟨?_, ?_, ?_⟩
  · intro h hw
    rw [runProcess_import_ok e fs h, if_pos hw]
    exact ⟨rfl, by simp, rfl⟩
  · intro h hw
    rw [runProcess_import_ok e fs h, if_neg (by simp [hw])]
    simp
  · intro h
    cases hx : (importPhase e).exc with
    | none => exact absurd hx h
    | some x =>
        rw [runProcess_import_exc e fs x hx]
        simp

/-- C8 witness: the success branch instantiated on a concrete
environment and a concrete writable filesystem. -/
theorem exit_codes_witness :
    (importPhase envOk).exc = none ∧ writableCond writableFS = true ∧
    ((runProcess envOk writableFS).exitCode = 0 ∧
     successMsg ∈ (runProcess envOk writableFS).out ∧
     successMsg = "Report generated successfully: " ++ output_path) :=
  ⟨rfl, rfl, (exit_codes envOk writableFS).1 rfl rfl⟩

/-- C9: in every execution the document is created exactly once (by the
first statement), populated strictly in append order — after every
prefix of the script the block-kind skeleton so far is a prefix of the
final skeleton, so blocks are never reordered or removed — serialized
exactly once to the fixed output path, and never mutated after the save
statement (the final in-memory document equals the saved one). -/
theorem document_lifecycle :
    program.count Cmd.createDoc = 1 ∧
    program.head? = some Cmd.createDoc ∧
    program.count Cmd.saveDoc = 1 ∧
    ((program.dropWhile (fun c => c != Cmd.saveDoc)).tail.all
        fun c => !(docWrite c)) = true ∧
    ((List.range (program.length + 1)).all fun i =>
        (skeleton (docAfter writableFS i)).isPrefixOf (skeleton reportDoc)) = true ∧
    (runProg program ⟨none, writableFS, []⟩).2.doc = some reportDoc ∧
    (runProg program ⟨none, writableFS, []⟩).2.fs.files.lookup output_path =
      some reportDoc := by
  refine ⟨rfl, rfl, rfl, rfl, ?_, rfl, rfl⟩
  decide

end GenerateReport
